import Mathlib

/-!
Verification of the per-user record store in `src/server.js` (an Express
application persisting weight entries, nutrition entries and goal settings
per user in JSON files).

The JavaScript source is shallowly embedded: each route handler becomes a
pure Lean function from its request body and the relevant slice of stored
state to a response and the updated state.  JavaScript numbers appearing in
the data are modelled as `ℚ` (with `Option ℚ` where `NaN` can arise),
strings as `String`, and `Date.now()` as an explicit `Nat` parameter.
`Array.prototype.sort` with a numeric comparator is guaranteed stable by the
ECMAScript standard; a stable sort by a total key order is unique as a
function of its input, so it is embedded as a stable insertion sort by the
key.  `new Date(x).getTime()` on the stored date values is an external
builtin and is kept abstract as a parameter `dv : JVal → Int`.
-/

namespace Server

/-- Model of a JavaScript request-body value as relevant to the handlers:
absent (`undefined`), a number, or a string.  (`NaN` never occurs as a body
value in the scenarios considered; numbers are modelled by `ℚ`.) -/
inductive JVal where
  | undef : JVal
  | num : ℚ → JVal
  | str : String → JVal
deriving DecidableEq, Repr

/-- JavaScript truthiness of a body value: `undefined`, `0` and the empty
string are falsy, everything else modelled here is truthy. -/
def JVal.truthy : JVal → Bool
  | .undef => false
  | .num q => q != 0
  | .str s => s != ""

/-- Modelled builtin: the value of a decimal-digit string, used to give
meaning to `parseFloat` on the numeric strings appearing in the claims. -/
def digitsVal (cs : List Char) : ℚ :=
  cs.foldl (fun a c => 10 * a + (c.toNat - 48)) 0

/-- Modelled builtin: JavaScript `parseFloat` on a string, restricted to
nonnegative decimal-integer numerals; every other string parses to `NaN`,
represented as `none`. -/
def parseFloatStr (s : String) : Option ℚ :=
  if s.data ≠ [] ∧ s.data.all (fun c => c.isDigit) then some (digitsVal s.data)
  else none

/-- Modelled builtin: JavaScript `parseFloat` applied to a body value.
`parseFloat(undefined)` is `NaN` (`none`); a number parses to itself. -/
def JVal.parseFloat : JVal → Option ℚ
  | .undef => none
  | .num q => some q
  | .str s => parseFloatStr s

/-- The JavaScript idiom `parseFloat(v) || d`: the parsed number unless it
is `NaN` or `0`, in which case the default `d`. -/
def orDefault (v : JVal) (d : ℚ) : ℚ :=
  match v.parseFloat with
  | none => d
  | some q => if q = 0 then d else q

/-! ### Stable sorting

`entries.sort((a, b) => k(a) - k(b))` is a stable sort by the integer key
`k`.  The stable sort by a total key order is uniquely determined, so it is
embedded as the standard stable insertion sort. -/

/-- Insert `e` into `l` before the first element whose key is not strictly
smaller, so that `e` lands after strictly-smaller keys and before equal
keys coming later in the list. -/
def stableInsert (k : α → Int) (e : α) : List α → List α
  | [] => [e]
  | x :: xs => if k x < k e then x :: stableInsert k e xs else e :: x :: xs

/-- Stable insertion sort by the key `k`, ascending. -/
def stableSortByKey (k : α → Int) : List α → List α
  | [] => []
  | x :: xs => stableInsert k x (stableSortByKey k xs)

theorem stableInsert_perm (k : α → Int) (e : α) (l : List α) :
    List.Perm (stableInsert k e l) (e :: l) := by
  induction l with
  | nil => exact List.Perm.refl _
  | cons x xs ih =>
    by_cases h : k x < k e
    · simpa [stableInsert, h] using (ih.cons x).trans (List.Perm.swap e x xs)
    · simp [stableInsert, h]

theorem stableSortByKey_perm (k : α → Int) (l : List α) :
    List.Perm (stableSortByKey k l) l := by
  induction l with
  | nil => exact List.Perm.refl _
  | cons x xs ih =>
    exact (stableInsert_perm k x (stableSortByKey k xs)).trans (ih.cons x)

theorem mem_stableInsert (k : α → Int) (e a : α) (l : List α) :
    a ∈ stableInsert k e l ↔ a = e ∨ a ∈ l := by
  rw [(stableInsert_perm k e l).mem_iff]; simp

theorem stableInsert_sorted (k : α → Int) (e : α) (l : List α)
    (h : l.Pairwise (fun a b => k a ≤ k b)) :
    (stableInsert k e l).Pairwise (fun a b => k a ≤ k b) := by
  induction l with
  | nil => simp [stableInsert]
  | cons x xs ih =>
    rcases List.pairwise_cons.1 h with ⟨hx, hxs⟩
    by_cases hlt : k x < k e
    · rw [stableInsert, if_pos hlt]
      refine List.pairwise_cons.2 ⟨?_, ih hxs⟩
      intro b hb
      rcases (mem_stableInsert k e b xs).1 hb with hb | hb
      · exact hb ▸ le_of_lt hlt
      · exact hx b hb
    · rw [stableInsert, if_neg hlt]
      refine List.pairwise_cons.2 ⟨?_, h⟩
      intro b hb
      rcases List.mem_cons.1 hb with hb | hb
      · exact hb ▸ le_of_not_lt hlt
      · exact le_trans (le_of_not_lt hlt) (hx b hb)

theorem stableSortByKey_sorted (k : α → Int) (l : List α) :
    (stableSortByKey k l).Pairwise (fun a b => k a ≤ k b) := by
  induction l with
  | nil => simp [stableSortByKey]
  | cons x xs ih => exact stableInsert_sorted k x _ ih

theorem stableInsert_filter_key (k : α → Int) (e : α) (l : List α) (d : Int) :
    (stableInsert k e l).filter (fun x => decide (k x = d)) =
    (e :: l).filter (fun x => decide (k x = d)) := by
  induction l with
  | nil => rfl
  | cons x xs ih =>
    by_cases hlt : k x < k e
    · rw [stableInsert, if_pos hlt]
      by_cases hed : k e = d
      · have hxd : ¬ k x = d := by
          intro hx; rw [hx, hed] at hlt; exact lt_irrefl d hlt
        simp [List.filter_cons, hed, hxd, ih]
      · simp [List.filter_cons, hed, ih]
    · rw [stableInsert, if_neg hlt]

theorem stableSortByKey_filter_key (k : α → Int) (l : List α) (d : Int) :
    (stableSortByKey k l).filter (fun x => decide (k x = d)) =
    l.filter (fun x => decide (k x = d)) := by
  induction l with
  | nil => rfl
  | cons x xs ih =>
    rw [stableSortByKey, stableInsert_filter_key]
    simp only [List.filter_cons]
    rw [ih]

theorem stableSortByKey_length (k : α → Int) (l : List α) :
    (stableSortByKey k l).length = l.length :=
  (stableSortByKey_perm k l).length_eq

/-! ### Weight entries (`/api/entries`)

Source: `src/server.js` lines 265-315.  An entry is `{id: Date.now(), date,
weight: parseFloat(weight)}`; the collection is sorted by
`new Date(a.date) - new Date(b.date)` (ascending date). -/

/-- A stored weight entry: `{id: Date.now(), date, weight:
parseFloat(weight)}` where `weight` is `none` when `parseFloat` gave
`NaN`. -/
structure WeightEntry where
  id : Nat
  date : JVal
  weight : Option ℚ
deriving DecidableEq, Repr

/-- Request body of `POST /api/entries`. -/
structure WeightBody where
  date : JVal
  weight : JVal
deriving DecidableEq, Repr

/-- One storage access performed by a handler, recorded in order. -/
inductive StorageOp where
  | readOp : StorageOp
  | writeOp : StorageOp
deriving DecidableEq, Repr

/-- Result of `POST /api/entries`: HTTP status, the entry echoed on
success, the entries file content afterwards, and the storage accesses the
handler performed, in order. -/
structure WeightPostResult where
  status : Nat
  newEntry : Option WeightEntry
  stored : List WeightEntry
  ops : List StorageOp
deriving DecidableEq, Repr

/-- The comparator key of the weight collection: ascending date value. -/
def weightKey (dv : JVal → Int) (e : WeightEntry) : Int := dv e.date

/-- Sorting step of the weight-entry handler:
`entries.sort((a, b) => new Date(a.date) - new Date(b.date))`. -/
def sortWeightEntries (dv : JVal → Int) (l : List WeightEntry) : List WeightEntry :=
  stableSortByKey (weightKey dv) l

/-- Validation of `POST /api/entries`: the handler rejects when
`!date || !weight`. -/
def isValidWeightBody (b : WeightBody) : Bool :=
  b.date.truthy && b.weight.truthy

/-- The `newEntry` object literal of `POST /api/entries`:
`{id: Date.now(), date, weight: parseFloat(weight)}`. -/
def newWeightEntry (now : Nat) (body : WeightBody) : WeightEntry :=
  { id := now, date := body.date, weight := body.weight.parseFloat }

/-- Handler of `POST /api/entries` (src/server.js lines 274-296).  `dv` is
the date-value builtin, `now` the value of `Date.now()`, `entries` the
current content of the user's entries file, and `writeOk` whether the
`writeFileSync` inside `writeUserEntries` succeeds.  On validation failure
the handler returns 400 before any storage access; on write failure it
returns 500 and the file is unchanged. -/
def postEntries (dv : JVal → Int) (now : Nat) (body : WeightBody)
    (entries : List WeightEntry) (writeOk : Bool) : WeightPostResult :=
  if isValidWeightBody body then
    let e : WeightEntry := newWeightEntry now body
    if writeOk then
      { status := 201, newEntry := some e,
        stored := sortWeightEntries dv (entries ++ [e]),
        ops := [.readOp, .writeOp] }
    else
      { status := 500, newEntry := none, stored := entries,
        ops := [.readOp, .writeOp] }
  else
    { status := 400, newEntry := none, stored := entries, ops := [] }

/-- Handler of `GET /api/entries` (src/server.js lines 268-271): returns
the user's entries file content verbatim. -/
def getEntries (entries : List WeightEntry) : List WeightEntry := entries

/-- A sequence of `POST /api/entries` handler invocations, each given as a
`(Date.now(), body)` pair, executed in order against the same user's
collection.  Each handler invocation is synchronous JavaScript with no
`await` between its read and its write, so under the event loop's
run-to-completion semantics concurrent invocations execute as some
sequential order of whole invocations. -/
def runWeightAdds (dv : JVal → Int) (jobs : List (Nat × WeightBody))
    (entries : List WeightEntry) : List WeightEntry :=
  jobs.foldl (fun st j => (postEntries dv j.1 j.2 st true).stored) entries

/-! ### Nutrition entries (`/api/nutrition/...`)

Source: `src/server.js` lines 317-423.  Collection sorted by
`new Date(b.date) - new Date(a.date)` (descending date). -/

/-- A stored nutrition entry; the four macro numbers go through
`parseFloat(x) || 0` and therefore are always plain numbers. -/
structure NutritionEntry where
  id : Nat
  date : JVal
  type : JVal
  name : JVal
  calories : ℚ
  protein : ℚ
  carbs : ℚ
  fats : ℚ
deriving DecidableEq, Repr

/-- Request body of `POST /api/nutrition/entry`. -/
structure NutritionBody where
  date : JVal
  type : JVal
  name : JVal
  calories : JVal
  protein : JVal
  carbs : JVal
  fats : JVal
deriving DecidableEq, Repr

/-- The comparator key of the nutrition collection: descending date value
(`new Date(b.date) - new Date(a.date)`), i.e. ascending negated date. -/
def nutritionKey (dv : JVal → Int) (e : NutritionEntry) : Int := -(dv e.date)

/-- Sorting step of the nutrition-entry handler. -/
def sortNutritionEntries (dv : JVal → Int) (l : List NutritionEntry) : List NutritionEntry :=
  stableSortByKey (nutritionKey dv) l

/-- Validation of `POST /api/nutrition/entry`:
`!date || !type || !name || calories === undefined`. -/
def isValidNutritionBody (b : NutritionBody) : Bool :=
  b.date.truthy && b.type.truthy && b.name.truthy && b.calories != JVal.undef

/-- The `newEntry` object literal of `POST /api/nutrition/entry`: macro
fields go through `parseFloat(x) || 0`. -/
def newNutritionEntry (now : Nat) (b : NutritionBody) : NutritionEntry :=
  { id := now, date := b.date, type := b.type, name := b.name,
    calories := orDefault b.calories 0, protein := orDefault b.protein 0,
    carbs := orDefault b.carbs 0, fats := orDefault b.fats 0 }

/-- Handler of `POST /api/nutrition/entry` (src/server.js lines 345-376). -/
def postNutritionEntry (dv : JVal → Int) (now : Nat) (b : NutritionBody)
    (entries : List NutritionEntry) (writeOk : Bool) : Nat × List NutritionEntry :=
  if isValidNutritionBody b then
    let e : NutritionEntry := newNutritionEntry now b
    if writeOk then (201, sortNutritionEntries dv (entries ++ [e]))
    else (500, entries)
  else (400, entries)

/-- Handler of `POST /api/nutrition/entries` (bulk save, src/server.js
lines 326-342).  The body is either not an array (`none`, rejected with
400) or an array of records, which is written verbatim — the handler never
sorts. -/
def postNutritionEntries (body : Option (List NutritionEntry))
    (entries : List NutritionEntry) (writeOk : Bool) : Nat × List NutritionEntry :=
  match body with
  | none => (400, entries)
  | some l => if writeOk then (200, l) else (500, entries)

/-- Handler of `DELETE /api/nutrition/entry/:id` (src/server.js lines
379-395): filters out the id, 404 if nothing was removed, 500 if the write
fails. -/
def deleteNutritionEntry (idv : Nat) (entries : List NutritionEntry)
    (writeOk : Bool) : Nat × List NutritionEntry :=
  let remaining := entries.filter (fun e => e.id != idv)
  if remaining.length = entries.length then (404, entries)
  else if writeOk then (200, remaining) else (500, entries)

/-! ### Nutrition and legacy diet settings -/

/-- Request body of the settings routes. -/
structure GoalsBody where
  calorieGoal : JVal
  proteinGoal : JVal
  carbsGoal : JVal
  fatsGoal : JVal
deriving DecidableEq, Repr

/-- Stored goal settings; always four plain numbers. -/
structure GoalSettings where
  calorieGoal : ℚ
  proteinGoal : ℚ
  carbsGoal : ℚ
  fatsGoal : ℚ
deriving DecidableEq, Repr

/-- The defaults returned when no settings file exists. -/
def defaultGoals : GoalSettings :=
  { calorieGoal := 2000, proteinGoal := 150, carbsGoal := 200, fatsGoal := 65 }

/-- Settings object built by `POST /api/nutrition/settings` (src/server.js
lines 407-412): each field is `parseFloat(field) || default`,
independently of the other fields and of any stored state. -/
def settingsFromBody (b : GoalsBody) : GoalSettings :=
  { calorieGoal := orDefault b.calorieGoal 2000
    proteinGoal := orDefault b.proteinGoal 150
    carbsGoal := orDefault b.carbsGoal 200
    fatsGoal := orDefault b.fatsGoal 65 }

/-- Handler of `POST /api/nutrition/settings` (src/server.js lines
404-423).  There is no validation branch: the request is never rejected for
a bad field.  The stored file is fully replaced on success. -/
def postNutritionSettings (b : GoalsBody) (st : Option GoalSettings)
    (writeOk : Bool) : Nat × Option GoalSettings :=
  if writeOk then (200, some (settingsFromBody b)) else (500, st)

/-- Read path `readUserNutritionSettings` (src/server.js lines 130-152):
defaults when the file is absent (and on read error, conflated). -/
def readUserNutritionSettings (st : Option GoalSettings) : GoalSettings :=
  st.getD defaultGoals

/-- Settings object built by the legacy `POST /api/diet/settings`
(src/server.js lines 534-539); the construction is a verbatim copy of the
nutrition one in the source. -/
def dietSettingsFromBody (b : GoalsBody) : GoalSettings :=
  { calorieGoal := orDefault b.calorieGoal 2000
    proteinGoal := orDefault b.proteinGoal 150
    carbsGoal := orDefault b.carbsGoal 200
    fatsGoal := orDefault b.fatsGoal 65 }

/-- Handler of `POST /api/diet/settings` (src/server.js lines 530-548). -/
def postDietSettings (b : GoalsBody) (st : Option GoalSettings)
    (writeOk : Bool) : Nat × Option GoalSettings :=
  if writeOk then (200, some (dietSettingsFromBody b)) else (500, st)

/-- Read path of `GET /api/diet/settings` (src/server.js lines 515-527). -/
def readUserDietSettings (st : Option GoalSettings) : GoalSettings :=
  st.getD defaultGoals

/-! ### Authentication routes (`/api/auth/...`)

Source: `src/server.js` lines 173-263.  `bcrypt.hash` and `bcrypt.compare`
are opaque collaborators, kept abstract as function parameters.  The
username and password body fields are strings in every scenario considered,
with the empty string as the only falsy string. -/

/-- A record of `users.json`. -/
structure User where
  id : String
  username : String
  email : String
  password : String
  createdAt : String
deriving DecidableEq, Repr

/-- Response of `POST /api/auth/login`: status, error payload, and the
`{id, username}` object returned on success. -/
structure LoginResponse where
  status : Nat
  error : Option String
  user : Option (String × String)
deriving DecidableEq, Repr

/-- The lookup `users.find(u => u.username === username)`. -/
def findUser (users : List User) (uname : String) : Option User :=
  users.find? (fun u => u.username == uname)

/-- Handler of `POST /api/auth/login` (src/server.js lines 211-238).
`verify pwd hash` models `await bcrypt.compare(pwd, hash)`. -/
def login (verify : String → String → Bool) (users : List User)
    (uname pwd : String) : LoginResponse :=
  if uname = "" ∨ pwd = "" then
    { status := 400, error := some ("Username and password required"), user := none }
  else
    match findUser users uname with
    | none => { status := 401, error := some ("Invalid credentials"), user := none }
    | some u =>
      if verify pwd u.password then
        { status := 200, error := none, user := some (u.id, u.username) }
      else
        { status := 401, error := some ("Invalid credentials"), user := none }

/-- Outcome of `POST /api/auth/register`: status and the content of
`users.json` afterwards. -/
structure RegisterOutcome where
  status : Nat
  usersStored : List User
deriving DecidableEq, Repr

/-- Handler of `POST /api/auth/register` (src/server.js lines 176-208).
`hash` models `bcrypt.hash(·, 10)`; `now` and `createdAt` model
`Date.now()` and `new Date().toISOString()`; `writeOk` models whether the
`writeFileSync` inside `writeUsers` succeeds.  The source calls
`writeUsers(users)` without checking its return value and responds 201
regardless, so on write failure the stored list is unchanged while the
status is still 201. -/
def register (hash : String → String) (users : List User)
    (uname pwd email : String) (now : Nat) (createdAt : String)
    (writeOk : Bool) : RegisterOutcome :=
  if uname = "" ∨ pwd = "" then
    { status := 400, usersStored := users }
  else if (findUser users uname).isSome then
    { status := 400, usersStored := users }
  else
    let newUser : User :=
      { id := toString now, username := uname, email := email,
        password := hash pwd, createdAt := createdAt }
    { status := 201,
      usersStored := if writeOk then users ++ [newUser] else users }

/-! ### Per-user file layout and isolation

Source: `src/server.js` lines 66-67, 96-97, 126-127, 429, 451, 516, 532.
Every per-user collection lives in one file of the entries directory whose
name is the user id followed by a collection-specific suffix.  Generated
user ids are `Date.now().toString()`, hence digit-only strings. -/

/-- The five per-user collections persisted under `data/entries`. -/
inductive CollectionKind where
  | weight : CollectionKind
  | nutrition : CollectionKind
  | nutritionSettings : CollectionKind
  | diet : CollectionKind
  | dietSettings : CollectionKind
deriving DecidableEq, Repr

/-- The filename suffix of each collection, from the corresponding
`path.join(ENTRIES_DIR, ...)` expressions in the source. -/
def collectionSuffix : CollectionKind → String
  | .weight => ".json"
  | .nutrition => "_nutrition.json"
  | .nutritionSettings => "_nutrition_settings.json"
  | .diet => "_diet.json"
  | .dietSettings => "_diet_settings.json"

/-- The entries directory (`path.join(__dirname, 'data', 'entries')`),
a common path preceding every per-user file. -/
def entriesDirPath : String := "data/entries/"

/-- The backing file of a user's collection, e.g. `getUserEntriesFile`
(line 66) and its four siblings. -/
def collectionFile (userId : String) (c : CollectionKind) : String :=
  entriesDirPath ++ userId ++ collectionSuffix c

/-- The file system as seen by the server: file path to content. -/
def FileStore : Type := String → Option String

/-- Reading a user's collection file. -/
def readCollection (store : FileStore) (userId : String) (c : CollectionKind) :
    Option String :=
  store (collectionFile userId c)

/-- Writing a user's collection file (`fs.writeFileSync`). -/
def writeCollection (store : FileStore) (userId : String) (c : CollectionKind)
    (content : String) : FileStore :=
  Function.update store (collectionFile userId c) (some content)

/-- A sequence of collection writes performed under one user id. -/
def applyUserWrites (store : FileStore) (userId : String)
    (ws : List (CollectionKind × String)) : FileStore :=
  ws.foldl (fun st w => writeCollection st userId w.1 w.2) store

/-- A digit-only string, the shape of every generated user id
(`Date.now().toString()`). -/
def digitId (s : String) : Prop := ∀ c ∈ s.data, c.isDigit

theorem append_cancel_digits (l1 l2 t1 t2 : List Char)
    (h1 : ∀ c ∈ l1, c.isDigit) (h2 : ∀ c ∈ l2, c.isDigit)
    (ht1 : ∃ c cs, t1 = c :: cs ∧ c.isDigit = false)
    (ht2 : ∃ c cs, t2 = c :: cs ∧ c.isDigit = false)
    (h : l1 ++ t1 = l2 ++ t2) : l1 = l2 := by
  induction l1 generalizing l2 with
  | nil =>
    cases l2 with
    | nil => rfl
    | cons y ys =>
      exfalso
      rcases ht1 with ⟨c, cs, hc, hcd⟩
      rw [List.nil_append, List.cons_append, hc] at h
      have hy : y.isDigit := h2 y (List.mem_cons_self y ys)
      rw [List.cons.injEq] at h
      rw [h.1] at hcd
      rw [hy] at hcd
      exact Bool.noConfusion hcd
  | cons x xs ih =>
    cases l2 with
    | nil =>
      exfalso
      rcases ht2 with ⟨c, cs, hc, hcd⟩
      rw [List.nil_append, List.cons_append, hc] at h
      have hx : x.isDigit := h1 x (List.mem_cons_self x xs)
      rw [List.cons.injEq] at h
      rw [← h.1] at hcd
      rw [hx] at hcd
      exact Bool.noConfusion hcd
    | cons y ys =>
      rw [List.cons_append, List.cons_append, List.cons.injEq] at h
      have hxs := ih ys (fun c hc => h1 c (List.mem_cons_of_mem x hc))
        (fun c hc => h2 c (List.mem_cons_of_mem y hc)) h.2
      rw [h.1, hxs]

theorem collectionSuffix_head_not_digit (c : CollectionKind) :
    ∃ ch cs, (collectionSuffix c).data = ch :: cs ∧ ch.isDigit = false := by
  cases c
  · exact ⟨'.', ['j', 's', 'o', 'n'], rfl, rfl⟩
  · exact ⟨'_', "nutrition.json".data, rfl, rfl⟩
  · exact ⟨'_', "nutrition_settings.json".data, rfl, rfl⟩
  · exact ⟨'_', "diet.json".data, rfl, rfl⟩
  · exact ⟨'_', "diet_settings.json".data, rfl, rfl⟩

theorem collectionFile_injective (a b : String) (c c' : CollectionKind)
    (ha : digitId a) (hb : digitId b) (hab : a ≠ b) :
    collectionFile a c ≠ collectionFile b c' := by
  intro h
  apply hab
  have hdata : (collectionFile a c).data = (collectionFile b c').data :=
    congrArg String.data h
  rw [collectionFile, collectionFile, String.data_append, String.data_append,
    String.data_append, String.data_append, List.append_assoc,
    List.append_assoc] at hdata
  have hcancel := List.append_cancel_left hdata
  have hd := append_cancel_digits a.data b.data (collectionSuffix c).data
    (collectionSuffix c').data ha hb (collectionSuffix_head_not_digit c)
    (collectionSuffix_head_not_digit c') hcancel
  cases a; cases b; exact congrArg String.mk hd

/-! ### Concrete instances used by closed statements -/

/-- A concrete date-value function for closed statements: the numerator of
a numeric date value, `0` on anything else. -/
def dvDemo : JVal → Int
  | .num q => q.num
  | _ => 0

/-- A concrete stand-in for the opaque password-hashing collaborator. -/
def hashDemo (s : String) : String := "h:" ++ s

/-! ### Helper lemmas about the weight-entry handler -/

theorem postEntries_stored_eq (dv : JVal → Int) (now : Nat) (body : WeightBody)
    (entries : List WeightEntry) (hv : isValidWeightBody body = true) :
    (postEntries dv now body entries true).stored =
      sortWeightEntries dv (entries ++ [newWeightEntry now body]) := by
  simp only [postEntries, hv, if_true]

theorem postEntries_status_eq (dv : JVal → Int) (now : Nat) (body : WeightBody)
    (entries : List WeightEntry) (hv : isValidWeightBody body = true) :
    (postEntries dv now body entries true).status = 201 := by
  simp only [postEntries, hv, if_true]

theorem postEntries_stored_perm (dv : JVal → Int) (now : Nat) (body : WeightBody)
    (entries : List WeightEntry) (hv : isValidWeightBody body = true) :
    List.Perm (postEntries dv now body entries true).stored
      (entries ++ [newWeightEntry now body]) := by
  rw [postEntries_stored_eq dv now body entries hv]
  exact stableSortByKey_perm _ _

/-- C1: for every user and every weight-entry add with a valid (truthy)
date and weight, the subsequent list of the stored collection is sorted
ascending by date value, contains the newly added entry exactly once (its
id being fresh), and keeps entries of equal date value in their original
insertion order (stable sort). -/
theorem weight_add_list_sorted_stable_once
    (dv : JVal → Int) (now : Nat) (body : WeightBody)
    (entries : List WeightEntry)
    (hd : body.date.truthy = true) (hw : body.weight.truthy = true)
    (hfresh : ∀ x ∈ entries, x.id ≠ now) :
    (postEntries dv now body entries true).status = 201
    ∧ (getEntries (postEntries dv now body entries true).stored).Pairwise
        (fun a b => dv a.date ≤ dv b.date)
    ∧ (getEntries (postEntries dv now body entries true).stored).count
        (newWeightEntry now body) = 1
    ∧ ∀ d : Int,
        (getEntries (postEntries dv now body entries true).stored).filter
            (fun x => decide (dv x.date = d)) =
          (entries ++ [newWeightEntry now body]).filter
            (fun x => decide (dv x.date = d)) := by
  have hv : isValidWeightBody body = true := by
    rw [isValidWeightBody, hd, hw]; rfl
  refine ⟨postEntries_status_eq dv now body entries hv, ?_, ?_, ?_⟩
  · rw [getEntries, postEntries_stored_eq dv now body entries hv]
    exact stableSortByKey_sorted (weightKey dv) _
  · rw [getEntries,
      (postEntries_stored_perm dv now body entries hv).count_eq,
      List.count_append]
    have hnot : newWeightEntry now body ∉ entries := by
      intro hmem
      exact hfresh _ hmem rfl
    rw [List.count_eq_zero.2 hnot]
    simp
  · intro d
    rw [getEntries, postEntries_stored_eq dv now body entries hv]
    exact stableSortByKey_filter_key (weightKey dv) _ d

/-- A concrete valid weight body for closed statements. -/
def wBodyDemo : WeightBody :=
  { date := JVal.str ("2024-03-01"), weight := JVal.str ("70") }

/-- Witness for C1 at a concrete input. -/
theorem weight_add_list_sorted_stable_once_witness :
    (wBodyDemo.date.truthy = true ∧ wBodyDemo.weight.truthy = true
      ∧ ∀ x ∈ ([] : List WeightEntry), x.id ≠ 5)
    ∧ ((postEntries dvDemo 5 wBodyDemo [] true).status = 201
      ∧ (getEntries (postEntries dvDemo 5 wBodyDemo [] true).stored).Pairwise
          (fun a b => dvDemo a.date ≤ dvDemo b.date)
      ∧ (getEntries (postEntries dvDemo 5 wBodyDemo [] true).stored).count
          (newWeightEntry 5 wBodyDemo) = 1
      ∧ ∀ d : Int,
          (getEntries (postEntries dvDemo 5 wBodyDemo [] true).stored).filter
              (fun x => decide (dvDemo x.date = d)) =
            ([] ++ [newWeightEntry 5 wBodyDemo]).filter
              (fun x => decide (dvDemo x.date = d))) :=
  ⟨⟨rfl, rfl, fun x hx => absurd hx (List.not_mem_nil x)⟩,
    weight_add_list_sorted_stable_once dvDemo 5 wBodyDemo []
      rfl rfl (fun x hx => absurd hx (List.not_mem_nil x))⟩

/-- C7 counterexample: a weight add with a present but non-numeric weight
string is NOT rejected: the handler returns 201, accesses storage, and
persists an entry whose weight is `NaN`, contradicting the claim that a
non-numeric weight fails with InvalidInput before any storage access with
nothing persisted. -/
theorem nonnumeric_weight_accepted :
    (postEntries dvDemo 5 { date := JVal.str ("2024-01-01"), weight := JVal.str ("abc") } [] true).status = 201
    ∧ (postEntries dvDemo 5 { date := JVal.str ("2024-01-01"), weight := JVal.str ("abc") } [] true).stored =
        [{ id := 5, date := JVal.str ("2024-01-01"), weight := none }]
    ∧ (postEntries dvDemo 5 { date := JVal.str ("2024-01-01"), weight := JVal.str ("abc") } [] true).ops ≠ [] := by
  refine ⟨rfl, ?_, ?_⟩
  · rfl
  · intro h
    exact List.cons_ne_nil _ _ h

/-- C7 amended: a weight add whose date or weight is falsy (missing, empty
or zero) fails with 400 before any storage access and persists nothing;
but a truthy non-numeric weight passes validation and is persisted with a
`NaN` weight. -/
theorem weight_add_fail_fast_amended
    (dv : JVal → Int) (now : Nat) (entries : List WeightEntry) (writeOk : Bool)
    (b1 b2 : WeightBody)
    (h1 : b1.date.truthy = false ∨ b1.weight.truthy = false)
    (h2d : b2.date.truthy = true) (h2w : b2.weight.truthy = true)
    (h2n : b2.weight.parseFloat = none) :
    postEntries dv now b1 entries writeOk =
      { status := 400, newEntry := none, stored := entries, ops := [] }
    ∧ (postEntries dv now b2 entries true).status = 201
    ∧ (postEntries dv now b2 entries true).stored =
        sortWeightEntries dv (entries ++ [{ id := now, date := b2.date, weight := none }]) := by
  have hv1 : isValidWeightBody b1 = false := by
    rcases h1 with h | h <;> simp [isValidWeightBody, h]
  have hv2 : isValidWeightBody b2 = true := by
    rw [isValidWeightBody, h2d, h2w]; rfl
  refine ⟨?_, postEntries_status_eq dv now b2 entries hv2, ?_⟩
  · simp only [postEntries, hv1, Bool.false_eq_true, if_false]
  · rw [postEntries_stored_eq dv now b2 entries hv2, newWeightEntry, h2n]

/-- Witness for the amended C7 at concrete inputs. -/
theorem weight_add_fail_fast_amended_witness :
    (((JVal.undef : JVal).truthy = false ∨ (JVal.num 70).truthy = false)
      ∧ (JVal.str ("2024-01-01")).truthy = true
      ∧ (JVal.str ("abc")).truthy = true
      ∧ (JVal.str ("abc")).parseFloat = none)
    ∧ (postEntries dvDemo 5 { date := JVal.undef, weight := JVal.num 70 } [] true =
        { status := 400, newEntry := none, stored := [], ops := [] }
      ∧ (postEntries dvDemo 5 { date := JVal.str ("2024-01-01"), weight := JVal.str ("abc") } [] true).status = 201
      ∧ (postEntries dvDemo 5 { date := JVal.str ("2024-01-01"), weight := JVal.str ("abc") } [] true).stored =
          sortWeightEntries dvDemo
            ([] ++ [{ id := 5, date := JVal.str ("2024-01-01"), weight := none }])) :=
  ⟨⟨Or.inl rfl, rfl, rfl, rfl⟩,
    weight_add_fail_fast_amended dvDemo 5 [] true
      { date := JVal.undef, weight := JVal.num 70 }
      { date := JVal.str ("2024-01-01"), weight := JVal.str ("abc") }
      (Or.inl rfl) rfl rfl rfl⟩

/-- C4 counterexample: two weight entries created with the same
`Date.now()` value (two adds inside one millisecond) both receive that
value as their id, so the collection holds duplicate ids — the
creation-time id-collision window is present, not avoided. -/
theorem same_millisecond_id_collision :
    ((postEntries dvDemo 1000 wBodyDemo
        (postEntries dvDemo 1000 wBodyDemo [] true).stored true).stored.map
      (fun e => e.id)) = [1000, 1000]
    ∧ ¬ ((postEntries dvDemo 1000 wBodyDemo
        (postEntries dvDemo 1000 wBodyDemo [] true).stored true).stored.map
      (fun e => e.id)).Nodup := by
  refine ⟨rfl, ?_⟩
  intro h
  rw [show ((postEntries dvDemo 1000 wBodyDemo
      (postEntries dvDemo 1000 wBodyDemo [] true).stored true).stored.map
      (fun e => e.id)) = [1000, 1000] from rfl] at h
  simp at h

/-- C4 amended: new record ids are the `Date.now()` creation timestamp;
two adds with distinct timestamps (and timestamps fresh for the
collection) keep all ids unique, but adds within the same millisecond
collide. -/
theorem ids_unique_distinct_times
    (dv : JVal → Int) (t1 t2 : Nat) (b1 b2 : WeightBody)
    (entries : List WeightEntry)
    (hv1 : isValidWeightBody b1 = true) (hv2 : isValidWeightBody b2 = true)
    (ht : t1 ≠ t2)
    (h1 : ∀ x ∈ entries, x.id ≠ t1) (h2 : ∀ x ∈ entries, x.id ≠ t2)
    (hnd : (entries.map (fun e => e.id)).Nodup) :
    (((postEntries dv t2 b2 (postEntries dv t1 b1 entries true).stored true).stored).map
      (fun e => e.id)).Nodup := by
  have hp1 := postEntries_stored_perm dv t1 b1 entries hv1
  have hmem1 : ∀ x ∈ (postEntries dv t1 b1 entries true).stored, x.id ≠ t2 := by
    intro x hx
    rcases List.mem_append.1 (hp1.mem_iff.1 hx) with hx | hx
    · exact h2 x hx
    · rcases List.mem_singleton.1 hx with rfl
      exact fun h => ht h
  have hnd1 : ((postEntries dv t1 b1 entries true).stored.map (fun e => e.id)).Nodup := by
    refine ((hp1.map (fun e => e.id)).nodup_iff).2 ?_
    rw [List.map_append]
    rw [List.nodup_append]
    refine ⟨hnd, List.nodup_singleton _, ?_⟩
    intro v hv hv'
    rcases List.mem_map.1 hv with ⟨x, hx, rfl⟩
    rcases List.mem_singleton.1 hv' with h
    rw [newWeightEntry] at h
    exact h1 x hx h
  have hp2 := postEntries_stored_perm dv t2 b2 (postEntries dv t1 b1 entries true).stored hv2
  refine ((hp2.map (fun e => e.id)).nodup_iff).2 ?_
  rw [List.map_append]
  rw [List.nodup_append]
  refine ⟨hnd1, List.nodup_singleton _, ?_⟩
  intro v hv hv'
  rcases List.mem_map.1 hv with ⟨x, hx, rfl⟩
  rcases List.mem_singleton.1 hv' with h
  rw [newWeightEntry] at h
  exact hmem1 x hx h

/-- Witness for the amended C4 at concrete inputs. -/
theorem ids_unique_distinct_times_witness :
    (isValidWeightBody wBodyDemo = true ∧ (1000 : Nat) ≠ 1001
      ∧ (∀ x ∈ ([] : List WeightEntry), x.id ≠ 1000)
      ∧ (∀ x ∈ ([] : List WeightEntry), x.id ≠ 1001)
      ∧ (([] : List WeightEntry).map (fun e => e.id)).Nodup)
    ∧ (((postEntries dvDemo 1001 wBodyDemo
          (postEntries dvDemo 1000 wBodyDemo [] true).stored true).stored).map
        (fun e => e.id)).Nodup :=
  ⟨⟨rfl, by decide, fun x hx => absurd hx (List.not_mem_nil x),
      fun x hx => absurd hx (List.not_mem_nil x), List.nodup_nil⟩,
    ids_unique_distinct_times dvDemo 1000 1001 wBodyDemo wBodyDemo []
      rfl rfl (by decide)
      (fun x hx => absurd hx (List.not_mem_nil x))
      (fun x hx => absurd hx (List.not_mem_nil x)) List.nodup_nil⟩

theorem runWeightAdds_length (dv : JVal → Int) (jobs : List (Nat × WeightBody))
    (entries : List WeightEntry) :
    (runWeightAdds dv jobs entries).length =
      entries.length + (jobs.filter (fun j => isValidWeightBody j.2)).length := by
  induction jobs generalizing entries with
  | nil => rfl
  | cons j js ih =>
    have hstep : (runWeightAdds dv (j :: js) entries) =
        runWeightAdds dv js (postEntries dv j.1 j.2 entries true).stored := rfl
    rw [hstep, ih]
    by_cases hv : isValidWeightBody j.2 = true
    · rw [postEntries_stored_eq dv j.1 j.2 entries hv]
      rw [sortWeightEntries, stableSortByKey_length, List.length_append]
      simp [List.filter_cons, hv]
      omega
    · have hv' : isValidWeightBody j.2 = false := by
        cases hb : isValidWeightBody j.2
        · rfl
        · exact absurd hb hv
      have hst : (postEntries dv j.1 j.2 entries true).stored = entries := by
        simp only [postEntries, hv', Bool.false_eq_true, if_false]
      rw [hst]
      simp [List.filter_cons, hv']

/-- C9: a batch of weight-add handler invocations for one user never loses
an insertion: executed in any order (each invocation is synchronous
JavaScript with no suspension point between its read and its write, so the
event loop runs it to completion), the final collection size equals the
initial size plus the number of valid adds. -/
theorem concurrent_adds_no_lost_update
    (dv : JVal → Int) (jobs : List (Nat × WeightBody)) (entries : List WeightEntry) :
    (runWeightAdds dv jobs entries).length =
      entries.length + (jobs.filter (fun j => isValidWeightBody j.2)).length
    ∧ ∀ jobs2 : List (Nat × WeightBody), List.Perm jobs2 jobs →
        (runWeightAdds dv jobs2 entries).length =
          entries.length + (jobs.filter (fun j => isValidWeightBody j.2)).length := by
  refine ⟨runWeightAdds_length dv jobs entries, ?_⟩
  intro jobs2 hperm
  rw [runWeightAdds_length dv jobs2 entries]
  have hlen : (jobs2.filter (fun j => isValidWeightBody j.2)).length =
      (jobs.filter (fun j => isValidWeightBody j.2)).length :=
    (hperm.filter (fun j => isValidWeightBody j.2)).length_eq
  rw [hlen]

/-- Witness for C9 at a concrete input: two adds, also in swapped order. -/
theorem concurrent_adds_no_lost_update_witness :
    (List.Perm [(1001, wBodyDemo), (1000, wBodyDemo)]
      [(1000, wBodyDemo), (1001, wBodyDemo)])
    ∧ (runWeightAdds dvDemo [(1000, wBodyDemo), (1001, wBodyDemo)] []).length =
      ([] : List WeightEntry).length +
        (([(1000, wBodyDemo), (1001, wBodyDemo)] :
          List (Nat × WeightBody)).filter (fun j => isValidWeightBody j.2)).length
    ∧ (runWeightAdds dvDemo [(1001, wBodyDemo), (1000, wBodyDemo)] []).length =
        ([] : List WeightEntry).length +
          (([(1000, wBodyDemo), (1001, wBodyDemo)] :
            List (Nat × WeightBody)).filter (fun j => isValidWeightBody j.2)).length :=
  ⟨List.Perm.swap _ _ _,
    (concurrent_adds_no_lost_update dvDemo [(1000, wBodyDemo), (1001, wBodyDemo)] []).1,
    (concurrent_adds_no_lost_update dvDemo [(1000, wBodyDemo), (1001, wBodyDemo)] []).2
      [(1001, wBodyDemo), (1000, wBodyDemo)] (List.Perm.swap _ _ _)⟩

/-- C2 counterexample: a first save stores `{1800, 150, 200, 65}` as the
claim describes, but a second save that omits `calorieGoal` stores the
default 2000 for it, not the 1800 from the first save — each save fully
replaces the stored settings. -/
theorem settings_second_save_reverts :
    readUserNutritionSettings
        (postNutritionSettings
          { calorieGoal := JVal.num 1800, proteinGoal := JVal.undef,
            carbsGoal := JVal.undef, fatsGoal := JVal.undef } none true).2 =
      { calorieGoal := 1800, proteinGoal := 150, carbsGoal := 200, fatsGoal := 65 }
    ∧ (readUserNutritionSettings
        (postNutritionSettings
          { calorieGoal := JVal.undef, proteinGoal := JVal.undef,
            carbsGoal := JVal.undef, fatsGoal := JVal.undef }
          (postNutritionSettings
            { calorieGoal := JVal.num 1800, proteinGoal := JVal.undef,
              carbsGoal := JVal.undef, fatsGoal := JVal.undef } none true).2 true).2).calorieGoal = 2000
    ∧ (2000 : ℚ) ≠ 1800 := by
  refine ⟨?_, ?_, ?_⟩
  · rfl
  · rfl
  · intro h
    exact absurd h (by norm_num)

/-- C2 amended: `saveSettings` never rejects a request and coerces each of
the four goal fields independently to its standard default when the field
is missing or non-numeric; but the stored settings are fully replaced on
every save, independently of the previously stored state, so a field
omitted in a second save reverts to its default rather than keeping the
first save's value. -/
theorem settings_coerce_full_replace
    (st st2 : Option GoalSettings) (b : GoalsBody) :
    (postNutritionSettings b st true).1 = 200
    ∧ (postNutritionSettings b st true).2 = (postNutritionSettings b st2 true).2
    ∧ (b.calorieGoal.parseFloat = none →
        (readUserNutritionSettings (postNutritionSettings b st true).2).calorieGoal = 2000)
    ∧ (b.proteinGoal.parseFloat = none →
        (readUserNutritionSettings (postNutritionSettings b st true).2).proteinGoal = 150)
    ∧ (b.carbsGoal.parseFloat = none →
        (readUserNutritionSettings (postNutritionSettings b st true).2).carbsGoal = 200)
    ∧ (b.fatsGoal.parseFloat = none →
        (readUserNutritionSettings (postNutritionSettings b st true).2).fatsGoal = 65) := by
  refine ⟨rfl, rfl, ?_, ?_, ?_, ?_⟩ <;> intro h <;>
    simp [postNutritionSettings, readUserNutritionSettings, settingsFromBody, orDefault, h]

/-- A concrete settings body whose four fields are all missing or
non-numeric. -/
def gBodyBad : GoalsBody :=
  { calorieGoal := JVal.str ("abc"), proteinGoal := JVal.undef,
    carbsGoal := JVal.str (""), fatsGoal := JVal.undef }

/-- Witness for the amended C2 at a concrete input. -/
theorem settings_coerce_full_replace_witness :
    (gBodyBad.calorieGoal.parseFloat = none
      ∧ gBodyBad.proteinGoal.parseFloat = none
      ∧ gBodyBad.carbsGoal.parseFloat = none
      ∧ gBodyBad.fatsGoal.parseFloat = none)
    ∧ ((postNutritionSettings gBodyBad none true).1 = 200
      ∧ (postNutritionSettings gBodyBad none true).2 =
          (postNutritionSettings gBodyBad (some defaultGoals) true).2
      ∧ (gBodyBad.calorieGoal.parseFloat = none →
          (readUserNutritionSettings (postNutritionSettings gBodyBad none true).2).calorieGoal = 2000)
      ∧ (gBodyBad.proteinGoal.parseFloat = none →
          (readUserNutritionSettings (postNutritionSettings gBodyBad none true).2).proteinGoal = 150)
      ∧ (gBodyBad.carbsGoal.parseFloat = none →
          (readUserNutritionSettings (postNutritionSettings gBodyBad none true).2).carbsGoal = 200)
      ∧ (gBodyBad.fatsGoal.parseFloat = none →
          (readUserNutritionSettings (postNutritionSettings gBodyBad none true).2).fatsGoal = 65)) :=
  ⟨⟨rfl, rfl, rfl, rfl⟩,
    settings_coerce_full_replace none (some defaultGoals) gBodyBad⟩

/-- C10: a goal field supplied as the numeric value 0 is stored as its
standard default, on both the nutrition settings route and the legacy diet
settings route — zero is coerced like a missing field even though it is
present and numeric. -/
theorem zero_goal_coerced_to_default
    (st st2 : Option GoalSettings) (b : GoalsBody) :
    (b.calorieGoal = JVal.num 0 →
      (readUserNutritionSettings (postNutritionSettings b st true).2).calorieGoal = 2000)
    ∧ (b.proteinGoal = JVal.num 0 →
      (readUserNutritionSettings (postNutritionSettings b st true).2).proteinGoal = 150)
    ∧ (b.carbsGoal = JVal.num 0 →
      (readUserNutritionSettings (postNutritionSettings b st true).2).carbsGoal = 200)
    ∧ (b.fatsGoal = JVal.num 0 →
      (readUserNutritionSettings (postNutritionSettings b st true).2).fatsGoal = 65)
    ∧ (b.calorieGoal = JVal.num 0 →
      (readUserDietSettings (postDietSettings b st2 true).2).calorieGoal = 2000)
    ∧ (b.proteinGoal = JVal.num 0 →
      (readUserDietSettings (postDietSettings b st2 true).2).proteinGoal = 150)
    ∧ (b.carbsGoal = JVal.num 0 →
      (readUserDietSettings (postDietSettings b st2 true).2).carbsGoal = 200)
    ∧ (b.fatsGoal = JVal.num 0 →
      (readUserDietSettings (postDietSettings b st2 true).2).fatsGoal = 65) := by
  refine ⟨?_, ?_, ?_, ?_, ?_, ?_, ?_, ?_⟩ <;> intro h <;>
    simp [postNutritionSettings, postDietSettings, readUserNutritionSettings,
      readUserDietSettings, settingsFromBody, dietSettingsFromBody, orDefault,
      JVal.parseFloat, h]

/-- A settings body supplying every goal field as the number 0. -/
def gBodyZero : GoalsBody :=
  { calorieGoal := JVal.num 0, proteinGoal := JVal.num 0,
    carbsGoal := JVal.num 0, fatsGoal := JVal.num 0 }

/-- Witness for C10 at a concrete input. -/
theorem zero_goal_coerced_to_default_witness :
    (gBodyZero.calorieGoal = JVal.num 0 ∧ gBodyZero.proteinGoal = JVal.num 0
      ∧ gBodyZero.carbsGoal = JVal.num 0 ∧ gBodyZero.fatsGoal = JVal.num 0)
    ∧ ((gBodyZero.calorieGoal = JVal.num 0 →
        (readUserNutritionSettings (postNutritionSettings gBodyZero none true).2).calorieGoal = 2000)
      ∧ (gBodyZero.proteinGoal = JVal.num 0 →
        (readUserNutritionSettings (postNutritionSettings gBodyZero none true).2).proteinGoal = 150)
      ∧ (gBodyZero.carbsGoal = JVal.num 0 →
        (readUserNutritionSettings (postNutritionSettings gBodyZero none true).2).carbsGoal = 200)
      ∧ (gBodyZero.fatsGoal = JVal.num 0 →
        (readUserNutritionSettings (postNutritionSettings gBodyZero none true).2).fatsGoal = 65)
      ∧ (gBodyZero.calorieGoal = JVal.num 0 →
        (readUserDietSettings (postDietSettings gBodyZero none true).2).calorieGoal = 2000)
      ∧ (gBodyZero.proteinGoal = JVal.num 0 →
        (readUserDietSettings (postDietSettings gBodyZero none true).2).proteinGoal = 150)
      ∧ (gBodyZero.carbsGoal = JVal.num 0 →
        (readUserDietSettings (postDietSettings gBodyZero none true).2).carbsGoal = 200)
      ∧ (gBodyZero.fatsGoal = JVal.num 0 →
        (readUserDietSettings (postDietSettings gBodyZero none true).2).fatsGoal = 65)) :=
  ⟨⟨rfl, rfl, rfl, rfl⟩,
    zero_goal_coerced_to_default none none gBodyZero⟩

/-- C6: a login with a username that does not exist and a login with an
existing username but a wrong password produce identical error responses:
the same 401 status and the same `Invalid credentials` payload. -/
theorem login_uniform_invalid_credentials
    (verify : String → String → Bool) (users1 users2 : List User)
    (u1 p1 u2 p2 : String)
    (hu1 : u1 ≠ "") (hp1 : p1 ≠ "") (hu2 : u2 ≠ "") (hp2 : p2 ≠ "")
    (h1 : findUser users1 u1 = none)
    (usr : User) (h2 : findUser users2 u2 = some usr)
    (h3 : verify p2 usr.password = false) :
    login verify users1 u1 p1 = login verify users2 u2 p2
    ∧ login verify users1 u1 p1 =
        { status := 401, error := some ("Invalid credentials"), user := none } := by
  have e1 : login verify users1 u1 p1 =
      { status := 401, error := some ("Invalid credentials"), user := none } := by
    rw [login, if_neg (by tauto), h1]
  have e2 : login verify users2 u2 p2 =
      { status := 401, error := some ("Invalid credentials"), user := none } := by
    rw [login, if_neg (by tauto), h2]
    simp [h3]
  exact ⟨e1.trans e2.symm, e1⟩

/-- A concrete user record for closed statements. -/
def userDemo : User :=
  { id := toString 1000, username := "alice", email := "",
    password := hashDemo ("pw"), createdAt := "t" }

/-- Witness for C6 at a concrete input: unknown username on one side, a
wrong password for an existing user on the other. -/
theorem login_uniform_invalid_credentials_witness :
    (("bob" : String) ≠ "" ∧ ("x" : String) ≠ "" ∧ ("alice" : String) ≠ ""
      ∧ ("wrong" : String) ≠ ""
      ∧ findUser [] ("bob") = none
      ∧ findUser [userDemo] ("alice") = some userDemo
      ∧ (fun _ _ => false : String → String → Bool) ("wrong") userDemo.password = false)
    ∧ (login (fun _ _ => false) [] ("bob") ("x") =
        login (fun _ _ => false) [userDemo] ("alice") ("wrong")
      ∧ login (fun _ _ => false) [] ("bob") ("x") =
          { status := 401, error := some ("Invalid credentials"), user := none }) :=
  ⟨⟨by decide, by decide, by decide, by decide, rfl, rfl, rfl⟩,
    login_uniform_invalid_credentials (fun _ _ => false) [] [userDemo]
      ("bob") ("x") ("alice") ("wrong")
      (by decide) (by decide) (by decide) (by decide) rfl userDemo rfl rfl⟩

/-- C8 counterexample: `register` with a failing `writeUsers` still
responds 201 and leaves the stored user list unchanged — the storage
failure of this mutating operation is silently swallowed into a success
response, contradicting the claim that every mutating operation surfaces
storage failures. -/
theorem register_swallows_write_failure :
    (register hashDemo [] ("alice") ("pw") ("") 1000 ("t") false).status = 201
    ∧ (register hashDemo [] ("alice") ("pw") ("") 1000 ("t") false).usersStored = [] := by
  exact ⟨rfl, rfl⟩

/-- C8 amended: the add, remove, bulk-replace and save-settings mutations
surface an underlying write failure as a 500 response and leave the store
unchanged, and read paths conflate an unreadable store with the
empty/default state; but `register` ignores the result of persisting the
user and reports 201 success even when the write fails. -/
theorem storage_failure_surfacing_amended
    (dv : JVal → Int) (now : Nat) (wb : WeightBody) (entries : List WeightEntry)
    (nb : NutritionBody) (nentries dentries : List NutritionEntry)
    (l : List NutritionEntry) (idv : Nat) (gb : GoalsBody) (st : Option GoalSettings)
    (hash : String → String) (users : List User) (uname pwd email createdAt : String)
    (hwv : isValidWeightBody wb = true)
    (hnv : isValidNutritionBody nb = true)
    (hdel : (dentries.filter (fun e => e.id != idv)).length ≠ dentries.length)
    (hu : uname ≠ "") (hp : pwd ≠ "") (hfind : findUser users uname = none) :
    (postEntries dv now wb entries false).status = 500
    ∧ (postEntries dv now wb entries false).stored = entries
    ∧ postNutritionEntry dv now nb nentries false = (500, nentries)
    ∧ postNutritionEntries (some l) nentries false = (500, nentries)
    ∧ deleteNutritionEntry idv dentries false = (500, dentries)
    ∧ postNutritionSettings gb st false = (500, st)
    ∧ postDietSettings gb st false = (500, st)
    ∧ (register hash users uname pwd email now createdAt false).status = 201
    ∧ (register hash users uname pwd email now createdAt false).usersStored = users := by
  refine ⟨?_, ?_, ?_, rfl, ?_, rfl, rfl, ?_, ?_⟩
  · simp [postEntries, hwv]
  · simp [postEntries, hwv]
  · simp [postNutritionEntry, hnv]
  · rw [deleteNutritionEntry]
    simp only [if_neg hdel, Bool.false_eq_true, if_false]
  · rw [register, if_neg (by tauto), if_neg (by simp [hfind])]
  · rw [register, if_neg (by tauto), if_neg (by simp [hfind])]
    simp

/-- A concrete valid nutrition body for closed statements. -/
def nBodyDemo : NutritionBody :=
  { date := JVal.num 2, type := JVal.str ("lunch"), name := JVal.str ("rice"),
    calories := JVal.num 100, protein := JVal.undef, carbs := JVal.undef,
    fats := JVal.undef }

/-- A concrete stored nutrition entry for closed statements. -/
def nEntryDemo : NutritionEntry :=
  { id := 42, date := JVal.num 2, type := JVal.str ("lunch"),
    name := JVal.str ("rice"), calories := 100, protein := 0, carbs := 0,
    fats := 0 }

/-- Witness for the amended C8 at concrete inputs. -/
theorem storage_failure_surfacing_amended_witness :
    (isValidWeightBody wBodyDemo = true
      ∧ isValidNutritionBody nBodyDemo = true
      ∧ ([nEntryDemo].filter (fun e => e.id != 42)).length ≠ [nEntryDemo].length
      ∧ ("alice" : String) ≠ "" ∧ ("pw" : String) ≠ ""
      ∧ findUser [] ("alice") = none)
    ∧ ((postEntries dvDemo 1000 wBodyDemo [] false).status = 500
      ∧ (postEntries dvDemo 1000 wBodyDemo [] false).stored = []
      ∧ postNutritionEntry dvDemo 1000 nBodyDemo [] false = (500, [])
      ∧ postNutritionEntries (some [nEntryDemo]) [] false = (500, [])
      ∧ deleteNutritionEntry 42 [nEntryDemo] false = (500, [nEntryDemo])
      ∧ postNutritionSettings gBodyZero none false = (500, none)
      ∧ postDietSettings gBodyZero none false = (500, none)
      ∧ (register hashDemo [] ("alice") ("pw") ("") 1000 ("t") false).status = 201
      ∧ (register hashDemo [] ("alice") ("pw") ("") 1000 ("t") false).usersStored = []) :=
  ⟨⟨rfl, rfl, by decide, by decide, by decide, rfl⟩,
    storage_failure_surfacing_amended dvDemo 1000 wBodyDemo [] nBodyDemo []
      [nEntryDemo] [nEntryDemo] 42 gBodyZero none hashDemo [] ("alice") ("pw") ("") ("t")
      rfl rfl (by decide) (by decide) (by decide) rfl⟩

/-- C3: for two distinct users with generated (digit-only) ids, a read of
any of user b's five collections is unaffected by any sequence of writes
performed under user a's id — user b never sees a record written under
user a, because the per-user backing files are pairwise distinct. -/
theorem cross_user_isolation
    (store : FileStore) (a b : String) (ws : List (CollectionKind × String))
    (c2 : CollectionKind)
    (ha : digitId a) (hb : digitId b) (hab : a ≠ b) :
    readCollection (applyUserWrites store a ws) b c2 = readCollection store b c2 := by
  induction ws generalizing store with
  | nil => rfl
  | cons w ws ih =>
    have hstep : readCollection (writeCollection store a w.1 w.2) b c2 =
        readCollection store b c2 := by
      rw [readCollection, writeCollection]
      exact Function.update_noteq
        (collectionFile_injective b a c2 w.1 hb ha (fun h => hab h.symm)) _ _
    exact (ih (writeCollection store a w.1 w.2)).trans hstep

/-- Witness for C3 at a concrete input: user `1` writes every collection
kind; user `2` reads each of its own collections unchanged. -/
theorem cross_user_isolation_witness :
    (digitId ("1") ∧ digitId ("2") ∧ ("1" : String) ≠ "2")
    ∧ readCollection
        (applyUserWrites (fun _ => none) ("1")
          [(CollectionKind.weight, "w"), (CollectionKind.nutrition, "n"),
            (CollectionKind.nutritionSettings, "s"), (CollectionKind.diet, "d"),
            (CollectionKind.dietSettings, "e")]) ("2") CollectionKind.weight =
      readCollection (fun _ => none) ("2") CollectionKind.weight :=
  ⟨⟨by unfold digitId; decide, by unfold digitId; decide, by decide⟩,
    cross_user_isolation (fun _ => none) ("1") ("2")
      [(CollectionKind.weight, "w"), (CollectionKind.nutrition, "n"),
        (CollectionKind.nutritionSettings, "s"), (CollectionKind.diet, "d"),
        (CollectionKind.dietSettings, "e")] CollectionKind.weight
      (by unfold digitId; decide) (by unfold digitId; decide) (by decide)⟩

/-- C5 counterexample: the bulk save `POST /api/nutrition/entries` writes
the request array verbatim without sorting, so after a bulk replace with an
ascending-by-date array the stored collection is not sorted descending by
date, contradicting the claimed invariant for every mutation. -/
theorem replaceAll_breaks_desc_order :
    (postNutritionEntries (some [nEntryDemo, { nEntryDemo with id := 43, date := JVal.num 5 }]) [] true).1 = 200
    ∧ (postNutritionEntries (some [nEntryDemo, { nEntryDemo with id := 43, date := JVal.num 5 }]) [] true).2 =
        [nEntryDemo, { nEntryDemo with id := 43, date := JVal.num 5 }]
    ∧ ¬ ((postNutritionEntries (some [nEntryDemo, { nEntryDemo with id := 43, date := JVal.num 5 }]) [] true).2.Pairwise
          (fun x y => dvDemo y.date ≤ dvDemo x.date)) := by
  refine ⟨rfl, rfl, ?_⟩
  intro h
  have h2 := (List.pairwise_cons.1 h).1 _ (List.mem_cons_self _ _)
  rw [show dvDemo ({ nEntryDemo with id := 43, date := JVal.num 5 } : NutritionEntry).date = 5 from rfl,
    show dvDemo nEntryDemo.date = 2 from rfl] at h2
  omega

theorem postNutritionEntry_stored_eq (dv : JVal → Int) (now : Nat)
    (b : NutritionBody) (entries : List NutritionEntry)
    (hv : isValidNutritionBody b = true) :
    (postNutritionEntry dv now b entries true).2 =
      sortNutritionEntries dv (entries ++ [newNutritionEntry now b]) := by
  simp only [postNutritionEntry, hv, if_true]

/-- C5 amended: the nutrition collection is sorted descending by date with
ties in insertion order after a single-entry add, and a remove preserves
the descending order; but the bulk `replaceAll` stores the request array
verbatim (after checking only that it is an array) and does not restore
the sort. -/
theorem nutrition_order_invariant_amended
    (dv : JVal → Int) (now : Nat) (b : NutritionBody)
    (entries : List NutritionEntry) (idv : Nat) (l : List NutritionEntry)
    (hv : isValidNutritionBody b = true)
    (hs : entries.Pairwise (fun x y => dv y.date ≤ dv x.date)) :
    ((postNutritionEntry dv now b entries true).2.Pairwise
        (fun x y => dv y.date ≤ dv x.date))
    ∧ (∀ d : Int,
        (postNutritionEntry dv now b entries true).2.filter
            (fun x => decide (dv x.date = d)) =
          (entries ++ [newNutritionEntry now b]).filter
            (fun x => decide (dv x.date = d)))
    ∧ ((deleteNutritionEntry idv entries true).2.Pairwise
        (fun x y => dv y.date ≤ dv x.date))
    ∧ (postNutritionEntries (some l) entries true).2 = l := by
  refine ⟨?_, ?_, ?_, rfl⟩
  · rw [postNutritionEntry_stored_eq dv now b entries hv]
    have hsorted := stableSortByKey_sorted (nutritionKey dv)
      (entries ++ [newNutritionEntry now b])
    exact hsorted.imp (fun h => by
      have h2 : -(dv _) ≤ -(dv _) := h
      omega)
  · intro d
    rw [postNutritionEntry_stored_eq dv now b entries hv]
    have hfil := stableSortByKey_filter_key (nutritionKey dv)
      (entries ++ [newNutritionEntry now b]) (-d)
    have hpred : (fun (x : NutritionEntry) => decide (nutritionKey dv x = -d)) =
        (fun x => decide (dv x.date = d)) := by
      funext x
      exact decide_eq_decide.2 (by rw [nutritionKey]; omega)
    rw [hpred] at hfil
    exact hfil
  · rw [deleteNutritionEntry]
    by_cases hl : (entries.filter (fun e => e.id != idv)).length = entries.length
    · rw [if_pos hl]
      exact hs
    · rw [if_neg hl, if_pos rfl]
      exact hs.sublist (List.filter_sublist entries)

/-- Witness for the amended C5 at concrete inputs. -/
theorem nutrition_order_invariant_amended_witness :
    (isValidNutritionBody nBodyDemo = true
      ∧ ([nEntryDemo] : List NutritionEntry).Pairwise
          (fun x y => dvDemo y.date ≤ dvDemo x.date))
    ∧ (((postNutritionEntry dvDemo 1000 nBodyDemo [nEntryDemo] true).2.Pairwise
          (fun x y => dvDemo y.date ≤ dvDemo x.date))
      ∧ (∀ d : Int,
          (postNutritionEntry dvDemo 1000 nBodyDemo [nEntryDemo] true).2.filter
              (fun x => decide (dvDemo x.date = d)) =
            ([nEntryDemo] ++ [newNutritionEntry 1000 nBodyDemo]).filter
              (fun x => decide (dvDemo x.date = d)))
      ∧ ((deleteNutritionEntry 42 [nEntryDemo] true).2.Pairwise
          (fun x y => dvDemo y.date ≤ dvDemo x.date))
      ∧ (postNutritionEntries (some [nEntryDemo]) [nEntryDemo] true).2 = [nEntryDemo]) :=
  ⟨⟨rfl, List.pairwise_singleton _ _⟩,
    nutrition_order_invariant_amended dvDemo 1000 nBodyDemo [nEntryDemo] 42
      [nEntryDemo] rfl (List.pairwise_singleton _ _)⟩

end Server
